import Mathlib

/-!
Verification of the SHT3X temperature/humidity sensor driver
(`src/sht3x.c`, `src/sht3x.h`, `src/sht3x_defs.h`, `src/sht3x_private.h`)
against its natural-language specification.

The driver's pure helpers (command-code catalog, CRC, flag validation,
byte-count mapping, unit conversion) are embedded directly from
`src/sht3x.c`.  Machine integers (`uint8_t`, `uint16_t`, `size_t`,
`uint32_t`) are modelled as `Nat` with explicit truncation (`&&& 0xFF`)
where the C code relies on unsigned overflow.  The C `float`
computations are modelled over `ℚ` using the exact decimal literals that
appear in the source.  Callback-driven effects (bus writes, bus reads,
timer starts, completion-callback invocations) are modelled as explicit
effect lists returned by each step function.
-/

/- Result codes, from the `SHT3XResultCode` enum in `src/sht3x.h`. -/

abbrev SHT3X_RESULT_CODE_OK : Nat := 0

abbrev SHT3X_RESULT_CODE_DRIVER_ERR : Nat := 1

abbrev SHT3X_RESULT_CODE_INVALID_ARG : Nat := 2

abbrev SHT3X_RESULT_CODE_OUT_OF_MEMORY : Nat := 3

abbrev SHT3X_RESULT_CODE_IO_ERR : Nat := 4

abbrev SHT3X_RESULT_CODE_NO_DATA : Nat := 5

abbrev SHT3X_RESULT_CODE_CRC_MISMATCH : Nat := 6

abbrev SHT3X_RESULT_CODE_BUSY : Nat := 7

/- I2C transaction result codes, from `SHT3X_I2CResultCode` in `src/sht3x_defs.h`. -/

abbrev SHT3X_I2C_RESULT_CODE_OK : Nat := 0

abbrev SHT3X_I2C_RESULT_CODE_ADDRESS_NACK : Nat := 1

abbrev SHT3X_I2C_RESULT_CODE_BUS_ERROR : Nat := 2

/- Read-measurement flags, from `src/sht3x.h`. -/

abbrev SHT3X_FLAG_READ_TEMP : Nat := 1

abbrev SHT3X_FLAG_READ_HUM : Nat := 2

abbrev SHT3X_FLAG_VERIFY_CRC_TEMP : Nat := 4

abbrev SHT3X_FLAG_VERIFY_CRC_HUM : Nat := 8

/- Repeatability options, from the `SHT3XMeasRepeatability` enum in `src/sht3x.h`. -/

abbrev SHT3X_MEAS_REPEATABILITY_HIGH : Nat := 0

abbrev SHT3X_MEAS_REPEATABILITY_MEDIUM : Nat := 1

abbrev SHT3X_MEAS_REPEATABILITY_LOW : Nat := 2

/- Clock stretching options, from the `SHT3XClockStretching` enum in `src/sht3x.h`. -/

abbrev SHT3X_CLOCK_STRETCHING_ENABLED : Nat := 0

abbrev SHT3X_CLOCK_STRETCHING_DISABLED : Nat := 1

/- MPS options, from the `SHT3XMps` enum in `src/sht3x.h`. -/

abbrev SHT3X_MPS_0_5 : Nat := 0

abbrev SHT3X_MPS_1 : Nat := 1

abbrev SHT3X_MPS_2 : Nat := 2

abbrev SHT3X_MPS_4 : Nat := 3

abbrev SHT3X_MPS_10 : Nat := 4

/- Sequence types, from the `SHT3xSequenceType` enum in `src/sht3x.c`. -/

abbrev SHT3X_SEQUENCE_TYPE_READ_MEAS : Nat := 0

abbrev SHT3X_SEQUENCE_TYPE_SINGLE_SHOT_MEAS : Nat := 1

abbrev SHT3X_SEQUENCE_TYPE_READ_PERIODIC_MEAS : Nat := 2

/- Timing constants from `src/sht3x.c`. -/

abbrev SHT3X_MIN_DELAY_BETWEEN_TWO_I2C_CMDS_MS : Nat := 1

abbrev SHT3X_SOFT_RESET_DELAY_MS : Nat := 2

abbrev SHT3X_MAX_MEASUREMENT_DURATION_HIGH_REPEATBILITY_MS : Nat := 16

abbrev SHT3X_MAX_MEASUREMENT_DURATION_MEDIUM_REPEATBILITY_MS : Nat := 7

abbrev SHT3X_MAX_MEASUREMENT_DURATION_LOW_REPEATBILITY_MS : Nat := 5

/-- Embedding of `is_valid_i2c_addr` from `src/sht3x.c`. -/
def is_valid_i2c_addr (i2c_addr : Nat) : Bool :=
  (i2c_addr == 0x44) || (i2c_addr == 0x45)

/-- Embedding of `is_valid_repeatability` from `src/sht3x.c`. -/
def is_valid_repeatability (repeatability : Nat) : Bool :=
  (repeatability == SHT3X_MEAS_REPEATABILITY_HIGH)
  || (repeatability == SHT3X_MEAS_REPEATABILITY_MEDIUM)
  || (repeatability == SHT3X_MEAS_REPEATABILITY_LOW)

/-- Embedding of `is_valid_clock_stretching` from `src/sht3x.c`. -/
def is_valid_clock_stretching (clock_stretching : Nat) : Bool :=
  (clock_stretching == SHT3X_CLOCK_STRETCHING_ENABLED)
  || (clock_stretching == SHT3X_CLOCK_STRETCHING_DISABLED)

/-- Embedding of `is_valid_mps` from `src/sht3x.c`. -/
def is_valid_mps (mps : Nat) : Bool :=
  (mps == SHT3X_MPS_0_5)
  || (mps == SHT3X_MPS_1)
  || (mps == SHT3X_MPS_2)
  || (mps == SHT3X_MPS_4)
  || (mps == SHT3X_MPS_10)

/-- Embedding of `two_big_endian_bytes_to_uint16` from `src/sht3x.c`: the C code takes a
pointer to two `uint8_t` bytes; here the two bytes are passed directly.
`(((uint16_t)(bytes[0])) << 8) | ((uint16_t)(bytes[1]))`. -/
def two_big_endian_bytes_to_uint16 (b0 b1 : Nat) : Nat :=
  (b0 <<< 8) ||| b1

/-- One inner-loop iteration of `sht3x_crc8` from `src/sht3x.c`:
`if (crc & 0x80) crc = (crc << 1) ^ poly; else crc <<= 1;` with `crc`
stored in a `uint8_t` (hence the truncation to 8 bits on assignment)
and `poly = 0x31`. -/
def crc8_round (crc : Nat) : Nat :=
  if crc &&& 0x80 ≠ 0 then ((crc <<< 1) ^^^ 0x31) &&& 0xFF else (crc <<< 1) &&& 0xFF

/-- One outer-loop iteration of `sht3x_crc8` from `src/sht3x.c`:
`crc ^= data[i];` followed by the 8 inner bit rounds. -/
def crc8_byte (crc b : Nat) : Nat :=
  crc8_round (crc8_round (crc8_round (crc8_round
    (crc8_round (crc8_round (crc8_round (crc8_round (crc ^^^ b))))))))

/-- Embedding of `sht3x_crc8` from `src/sht3x.c`: CRC over exactly two bytes, with
initial value `0xFF`.  The C function takes a pointer to the two bytes;
here they are passed directly. -/
def sht3x_crc8 (b0 b1 : Nat) : Nat :=
  crc8_byte (crc8_byte 0xFF b0) b1

/-- Specification-level reformulation of the checksum for claim C5: a
bit-serial CRC that processes the 16 message bits most-significant-bit
first, with generator polynomial `x^8 + x^5 + x^4 + 1` (low bits
`0x31`), initial remainder `0xFF`, and no final XOR.  At each message
bit, the feedback is the XOR of the remainder's top bit and the
incoming bit. -/
def crc8_bit_step (crc : Nat) (bit : Bool) : Nat :=
  let inBit : Nat := if bit then 1 else 0
  if ((crc >>> 7) &&& 1) ^^^ inBit = 1 then ((crc <<< 1) ^^^ 0x31) &&& 0xFF
  else (crc <<< 1) &&& 0xFF

/-- The eight bits of a byte, most-significant first. -/
def byteBitsMSB (b : Nat) : List Bool :=
  [b.testBit 7, b.testBit 6, b.testBit 5, b.testBit 4,
   b.testBit 3, b.testBit 2, b.testBit 1, b.testBit 0]

/-- Specification-level CRC over two bytes (see `crc8_bit_step`). -/
def crc8_spec_bits (b0 b1 : Nat) : Nat :=
  (byteBitsMSB b0 ++ byteBitsMSB b1).foldl crc8_bit_step 0xFF

/-- Embedding of `SHT3X_TEMPERATURE_CONVERSION_MAGIC` from `src/sht3x.c`, the decimal
literal `0.002670328831921f` modelled as an exact rational. -/
def SHT3X_TEMPERATURE_CONVERSION_MAGIC : ℚ := 0.002670328831921

/-- Embedding of `SHT3X_HUMIDITY_CONVERSION_MAGIC` from `src/sht3x.c`, the decimal
literal `0.001525902189669f` modelled as an exact rational. -/
def SHT3X_HUMIDITY_CONVERSION_MAGIC : ℚ := 0.001525902189669

/-- Embedding of `convert_raw_temp_meas_to_celsius` from `src/sht3x.c`.  The C code
computes in `float`; here the same expression is evaluated over `ℚ`. -/
def convert_raw_temp_meas_to_celsius (b0 b1 : Nat) : ℚ :=
  SHT3X_TEMPERATURE_CONVERSION_MAGIC * (two_big_endian_bytes_to_uint16 b0 b1 : ℚ) - 45

/-- Embedding of `convert_raw_humidity_meas_to_rh` from `src/sht3x.c`.  The C code
computes in `float`; here the same expression is evaluated over `ℚ`. -/
def convert_raw_humidity_meas_to_rh (b0 b1 : Nat) : ℚ :=
  SHT3X_HUMIDITY_CONVERSION_MAGIC * (two_big_endian_bytes_to_uint16 b0 b1 : ℚ)

/-- Embedding of `get_single_shot_meas_timer_period` from `src/sht3x.c`.  The C
function returns a result code and writes the period through an out
pointer; `none` models the `SHT3X_RESULT_CODE_INVALID_ARG` outcomes
(the `period == NULL` check has no counterpart for a by-value result). -/
def get_single_shot_meas_timer_period (repeatability clock_stretching : Nat) : Option Nat :=
  if clock_stretching = SHT3X_CLOCK_STRETCHING_ENABLED then
    some SHT3X_MIN_DELAY_BETWEEN_TWO_I2C_CMDS_MS
  else if clock_stretching = SHT3X_CLOCK_STRETCHING_DISABLED then
    if repeatability = SHT3X_MEAS_REPEATABILITY_HIGH then
      some SHT3X_MAX_MEASUREMENT_DURATION_HIGH_REPEATBILITY_MS
    else if repeatability = SHT3X_MEAS_REPEATABILITY_MEDIUM then
      some SHT3X_MAX_MEASUREMENT_DURATION_MEDIUM_REPEATBILITY_MS
    else if repeatability = SHT3X_MEAS_REPEATABILITY_LOW then
      some SHT3X_MAX_MEASUREMENT_DURATION_LOW_REPEATBILITY_MS
    else
      none
  else
    none

/-- Embedding of `get_single_shot_meas_command_code` from `src/sht3x.c`.  The C
function returns a result code and writes the 2-byte command through an
out pointer; `none` models the `SHT3X_RESULT_CODE_INVALID_ARG` outcomes
(the `cmd == NULL` check has no counterpart for a by-value result). -/
def get_single_shot_meas_command_code (repeatability clock_stretching : Nat) :
    Option (Nat × Nat) :=
  if clock_stretching = SHT3X_CLOCK_STRETCHING_DISABLED then
    if repeatability = SHT3X_MEAS_REPEATABILITY_HIGH then some (0x24, 0x00)
    else if repeatability = SHT3X_MEAS_REPEATABILITY_MEDIUM then some (0x24, 0x0B)
    else if repeatability = SHT3X_MEAS_REPEATABILITY_LOW then some (0x24, 0x16)
    else none
  else if clock_stretching = SHT3X_CLOCK_STRETCHING_ENABLED then
    if repeatability = SHT3X_MEAS_REPEATABILITY_HIGH then some (0x2C, 0x06)
    else if repeatability = SHT3X_MEAS_REPEATABILITY_MEDIUM then some (0x2C, 0x0D)
    else if repeatability = SHT3X_MEAS_REPEATABILITY_LOW then some (0x2C, 0x10)
    else none
  else
    none

/-- Embedding of `get_start_periodic_meas_cmd` from `src/sht3x.c`, with `none`
modelling the `SHT3X_RESULT_CODE_INVALID_ARG` outcomes. -/
def get_start_periodic_meas_cmd (repeatability mps : Nat) : Option (Nat × Nat) :=
  if mps = SHT3X_MPS_0_5 then
    if repeatability = SHT3X_MEAS_REPEATABILITY_HIGH then some (0x20, 0x32)
    else if repeatability = SHT3X_MEAS_REPEATABILITY_MEDIUM then some (0x20, 0x24)
    else if repeatability = SHT3X_MEAS_REPEATABILITY_LOW then some (0x20, 0x2F)
    else none
  else if mps = SHT3X_MPS_1 then
    if repeatability = SHT3X_MEAS_REPEATABILITY_HIGH then some (0x21, 0x30)
    else if repeatability = SHT3X_MEAS_REPEATABILITY_MEDIUM then some (0x21, 0x26)
    else if repeatability = SHT3X_MEAS_REPEATABILITY_LOW then some (0x21, 0x2D)
    else none
  else if mps = SHT3X_MPS_2 then
    if repeatability = SHT3X_MEAS_REPEATABILITY_HIGH then some (0x22, 0x36)
    else if repeatability = SHT3X_MEAS_REPEATABILITY_MEDIUM then some (0x22, 0x20)
    else if repeatability = SHT3X_MEAS_REPEATABILITY_LOW then some (0x22, 0x2B)
    else none
  else if mps = SHT3X_MPS_4 then
    if repeatability = SHT3X_MEAS_REPEATABILITY_HIGH then some (0x23, 0x34)
    else if repeatability = SHT3X_MEAS_REPEATABILITY_MEDIUM then some (0x23, 0x22)
    else if repeatability = SHT3X_MEAS_REPEATABILITY_LOW then some (0x23, 0x29)
    else none
  else if mps = SHT3X_MPS_10 then
    if repeatability = SHT3X_MEAS_REPEATABILITY_HIGH then some (0x27, 0x37)
    else if repeatability = SHT3X_MEAS_REPEATABILITY_MEDIUM then some (0x27, 0x21)
    else if repeatability = SHT3X_MEAS_REPEATABILITY_LOW then some (0x27, 0x2A)
    else none
  else
    none

/-- Embedding of `read_flags_valid` from `src/sht3x.c`. -/
def read_flags_valid (flags : Nat) : Bool :=
  let flags_invalid :=
    ((flags &&& SHT3X_FLAG_READ_TEMP == 0) && (flags &&& SHT3X_FLAG_READ_HUM == 0))
    || ((flags &&& SHT3X_FLAG_VERIFY_CRC_TEMP != 0) && (flags &&& SHT3X_FLAG_READ_TEMP == 0))
    || ((flags &&& SHT3X_FLAG_VERIFY_CRC_HUM != 0) && (flags &&& SHT3X_FLAG_READ_HUM == 0))
  !flags_invalid

/-- Embedding of `map_read_meas_flags_to_num_bytes_to_read` from `src/sht3x.c`. -/
def map_read_meas_flags_to_num_bytes_to_read (flags : Nat) : Nat :=
  if flags = 0 then 0
  else if flags &&& SHT3X_FLAG_VERIFY_CRC_TEMP ≠ 0 ∧ flags &&& SHT3X_FLAG_READ_TEMP = 0 then 0
  else if flags &&& SHT3X_FLAG_VERIFY_CRC_HUM ≠ 0 ∧ flags &&& SHT3X_FLAG_READ_HUM = 0 then 0
  else if flags &&& SHT3X_FLAG_READ_HUM ≠ 0 ∧ flags &&& SHT3X_FLAG_VERIFY_CRC_HUM ≠ 0 then 6
  else if flags &&& SHT3X_FLAG_READ_HUM ≠ 0 then 5
  else if flags &&& SHT3X_FLAG_READ_TEMP ≠ 0 ∧ flags &&& SHT3X_FLAG_VERIFY_CRC_TEMP ≠ 0 then 3
  else if flags &&& SHT3X_FLAG_READ_TEMP ≠ 0 then 2
  else 0

/-- Shifting left by one distributes over bitwise XOR. -/
lemma xor_shiftLeft_one (a b : Nat) : (a ^^^ b) <<< 1 = (a <<< 1) ^^^ (b <<< 1) := by
  apply Nat.eq_of_testBit_eq
  intro i
  simp [Nat.testBit_shiftLeft, Nat.testBit_xor, Bool.and_xor_distrib_left]

lemma land_128_eq (x : Nat) : x &&& 0x80 = if x.testBit 7 then 0x80 else 0 := by
  apply Nat.eq_of_testBit_eq
  intro i
  by_cases hi : i = 7
  · subst hi
    by_cases h7 : x.testBit 7 <;>
      simp [Nat.testBit_land, h7, show (0x80 : Nat).testBit 7 = true from by decide]
  · have h128 : (0x80 : Nat).testBit i = false := by
      have : (0x80 : Nat) = 2 ^ 7 := by norm_num
      rw [this]
      exact Nat.testBit_two_pow_of_ne (fun h => hi h.symm)
    by_cases h7 : x.testBit 7 <;> simp [Nat.testBit_land, h128, h7]

lemma land_128_ne_zero_iff (x : Nat) : x &&& 0x80 ≠ 0 ↔ x.testBit 7 = true := by
  rw [land_128_eq]
  by_cases h : x.testBit 7 <;> simp [h]

lemma crc8_round_mux (x : Nat) :
    crc8_round x = ((x <<< 1) ^^^ (if x.testBit 7 then 0x31 else 0)) &&& 0xFF := by
  unfold crc8_round
  by_cases h : x.testBit 7
  · rw [if_pos ((land_128_ne_zero_iff x).mpr h), if_pos h]
  · rw [if_neg (by simpa using fun hc => h ((land_128_ne_zero_iff x).mp hc)), if_neg h]
    simp

lemma shiftRight7_and1 (u : Nat) : (u >>> 7) &&& 1 = if u.testBit 7 then 1 else 0 := by
  by_cases h : u.testBit 7
  · rw [if_pos h]
    rw [Nat.testBit_to_div_mod] at h
    rw [Nat.and_one_is_mod, Nat.shiftRight_eq_div_pow]
    exact of_decide_eq_true h
  · rw [if_neg h]
    rw [Nat.testBit_to_div_mod] at h
    rw [Nat.and_one_is_mod, Nat.shiftRight_eq_div_pow]
    have h2 : ¬ (u / 2 ^ 7 % 2 = 1) := fun hc => h (decide_eq_true hc)
    omega

lemma crc8_bit_step_mux (u : Nat) (bit : Bool) :
    crc8_bit_step u bit =
      ((u <<< 1) ^^^ (if (u.testBit 7 ^^ bit) then 0x31 else 0)) &&& 0xFF := by
  unfold crc8_bit_step
  rw [shiftRight7_and1]
  by_cases h7 : u.testBit 7 <;> cases bit <;> simp [h7]

lemma round_xor (u m : Nat) :
    crc8_round (u ^^^ m) = crc8_bit_step u (m.testBit 7) ^^^ ((m <<< 1) &&& 0xFF) := by
  rw [crc8_round_mux, crc8_bit_step_mux, Nat.testBit_xor, xor_shiftLeft_one,
    ← Nat.and_xor_distrib_right]
  congr 1
  rw [Nat.xor_assoc, Nat.xor_comm (m <<< 1), ← Nat.xor_assoc]

lemma mask_shift (x : Nat) : ((x &&& 0xFF) <<< 1) &&& 0xFF = (x <<< 1) &&& 0xFF := by
  apply Nat.eq_of_testBit_eq
  intro i
  simp only [Nat.testBit_land, Nat.testBit_shiftLeft]
  by_cases h1 : 1 ≤ i
  · by_cases h8 : i < 8
    · have h255 : ∀ j, j < 8 → (0xFF : Nat).testBit j = true := by decide
      have h7 : i - 1 < 8 := by omega
      simp [h255 i h8, h255 (i-1) h7, h1]
    · have h255 : (0xFF : Nat).testBit i = false := by
        apply Nat.testBit_eq_false_of_lt
        calc (0xFF : Nat) < 2 ^ 8 := by norm_num
        _ ≤ 2 ^ i := Nat.pow_le_pow_right (by norm_num) (by omega)
      simp [h255]
  · have : i = 0 := by omega
    subst this
    simp

lemma mask_testBit7 (x : Nat) : (x &&& 0xFF).testBit 7 = x.testBit 7 := by
  rw [Nat.testBit_land]
  simp [show (0xFF : Nat).testBit 7 = true from by decide]

lemma shift8_mask (b : Nat) : (b <<< 8) &&& 0xFF = 0 := by
  apply Nat.eq_of_testBit_eq
  intro i
  simp only [Nat.testBit_land, Nat.testBit_shiftLeft, Nat.zero_testBit]
  by_cases h8 : i < 8
  · have : ¬ (8 ≤ i) := by omega
    simp [show ¬ (i ≥ 8) from this]
  · have h255 : (0xFF : Nat).testBit i = false := by
      apply Nat.testBit_eq_false_of_lt
      calc (0xFF : Nat) < 2 ^ 8 := by norm_num
      _ ≤ 2 ^ i := Nat.pow_le_pow_right (by norm_num) (by omega)
    simp [h255]

lemma crc8_byte_eq_bits (s b : Nat) :
    crc8_byte s b = (byteBitsMSB b).foldl crc8_bit_step s := by
  unfold crc8_byte byteBitsMSB
  simp only [List.foldl]
  rw [round_xor s b]
  rw [round_xor, mask_shift, ← Nat.shiftLeft_add, mask_testBit7]
  rw [round_xor, mask_shift, ← Nat.shiftLeft_add, mask_testBit7]
  rw [round_xor, mask_shift, ← Nat.shiftLeft_add, mask_testBit7]
  rw [round_xor, mask_shift, ← Nat.shiftLeft_add, mask_testBit7]
  rw [round_xor, mask_shift, ← Nat.shiftLeft_add, mask_testBit7]
  rw [round_xor, mask_shift, ← Nat.shiftLeft_add, mask_testBit7]
  rw [round_xor, mask_shift, ← Nat.shiftLeft_add, mask_testBit7]
  norm_num [Nat.testBit_shiftLeft, shift8_mask]

/-- The measurement record `SHT3XMeasurement` from `src/sht3x.h`, with
the `float` fields modelled over `ℚ`. -/
structure SHT3XMeasurement where
  temperature : ℚ
  humidity : ℚ
deriving DecidableEq

/-- The driver-visible fields of `struct SHT3XStruct` from
`src/sht3x_private.h`.  Function-pointer fields (`i2c_write`,
`i2c_read`, `start_timer`) and the untyped callback handle
(`sequence_cb`, `sequence_cb_user_data`) are not data; the calls made
through them are modelled as explicit `DriverEffect` values instead.
The six-byte read buffer is a function from its index. -/
structure SHT3XStruct where
  i2c_addr : Nat
  sequence_type : Nat
  sequence_flags : Nat
  repeatability : Nat
  clock_stretching : Nat
  i2c_read_buf : Fin 6 → Nat

/-- One observable action of the driver on its environment: an I2C
write of the given bytes to the given address, an I2C read of the given
length from the given address, a timer start with the given period in
ms, or an invocation of the sequence's completion callback with the
given result code. -/
inductive DriverEffect where
  | i2cWrite (data : List Nat) (addr : Nat)
  | i2cRead (len : Nat) (addr : Nat)
  | startTimer (ms : Nat)
  | invokeCallback (rc : Nat)
deriving DecidableEq

/-- Embedding of `meas_i2c_complete_cb` from `src/sht3x.c`.  The result models the
single invocation of the measurement-complete callback the handler
performs: the result code passed to it and the measurement pointer
(`none` models `NULL`).  The handler checks the humidity CRC before the
temperature CRC, exactly as in the source. -/
def meas_i2c_complete_cb (result_code : Nat) (self : SHT3XStruct) :
    Nat × Option SHT3XMeasurement :=
  let return_no_data_if_address_nack :=
    self.sequence_type = SHT3X_SEQUENCE_TYPE_READ_MEAS
    ∨ self.sequence_type = SHT3X_SEQUENCE_TYPE_READ_PERIODIC_MEAS
  if result_code = SHT3X_I2C_RESULT_CODE_ADDRESS_NACK ∧ return_no_data_if_address_nack then
    (SHT3X_RESULT_CODE_NO_DATA, none)
  else if result_code ≠ SHT3X_I2C_RESULT_CODE_OK then
    (SHT3X_RESULT_CODE_IO_ERR, none)
  else if self.sequence_flags &&& SHT3X_FLAG_VERIFY_CRC_HUM ≠ 0
      ∧ sht3x_crc8 (self.i2c_read_buf 3) (self.i2c_read_buf 4) ≠ self.i2c_read_buf 5 then
    (SHT3X_RESULT_CODE_CRC_MISMATCH, none)
  else if self.sequence_flags &&& SHT3X_FLAG_VERIFY_CRC_TEMP ≠ 0
      ∧ sht3x_crc8 (self.i2c_read_buf 0) (self.i2c_read_buf 1) ≠ self.i2c_read_buf 2 then
    (SHT3X_RESULT_CODE_CRC_MISMATCH, none)
  else
    (SHT3X_RESULT_CODE_OK, some
      { temperature :=
          if self.sequence_flags &&& SHT3X_FLAG_READ_TEMP ≠ 0 then
            convert_raw_temp_meas_to_celsius (self.i2c_read_buf 0) (self.i2c_read_buf 1)
          else 0
        humidity :=
          if self.sequence_flags &&& SHT3X_FLAG_READ_HUM ≠ 0 then
            convert_raw_humidity_meas_to_rh (self.i2c_read_buf 3) (self.i2c_read_buf 4)
          else 0 })

/-- Embedding of `read_single_shot_measurement_part_2` from `src/sht3x.c`: the
completion callback of the single-shot command write in the combined
read-single-shot-measurement sequence.  On write failure it invokes the
measurement callback with `IO_ERR`; otherwise it starts the timer with
the period derived from the stored repeatability and clock-stretching
options (the `DRIVER_ERR` callback models the defensive branch for an
invalid stored option pair). -/
def read_single_shot_measurement_part_2 (result_code : Nat) (self : SHT3XStruct) :
    List DriverEffect :=
  if result_code ≠ SHT3X_I2C_RESULT_CODE_OK then
    [DriverEffect.invokeCallback SHT3X_RESULT_CODE_IO_ERR]
  else
    match get_single_shot_meas_timer_period self.repeatability self.clock_stretching with
    | none => [DriverEffect.invokeCallback SHT3X_RESULT_CODE_DRIVER_ERR]
    | some timer_period => [DriverEffect.startTimer timer_period]

/-- Embedding of `read_single_shot_measurement_part_3` from `src/sht3x.c`: the
timer-expiry continuation that issues the measurement read.  Note the
source's `length == 0` branch invokes the `DRIVER_ERR` callback but
does not return, so the `i2c_read` call is issued unconditionally; the
model reproduces that fall-through. -/
def read_single_shot_measurement_part_3 (self : SHT3XStruct) : List DriverEffect :=
  let length := map_read_meas_flags_to_num_bytes_to_read self.sequence_flags
  (if length = 0 then [DriverEffect.invokeCallback SHT3X_RESULT_CODE_DRIVER_ERR] else [])
    ++ [DriverEffect.i2cRead length self.i2c_addr]

/-- Embedding of `read_periodic_measurement_part_3` from `src/sht3x.c`: identical in
body to `read_single_shot_measurement_part_3`, including the missing
return after the defensive `DRIVER_ERR` callback. -/
def read_periodic_measurement_part_3 (self : SHT3XStruct) : List DriverEffect :=
  let length := map_read_meas_flags_to_num_bytes_to_read self.sequence_flags
  (if length = 0 then [DriverEffect.invokeCallback SHT3X_RESULT_CODE_DRIVER_ERR] else [])
    ++ [DriverEffect.i2cRead length self.i2c_addr]

/-- Embedding of `sht3x_send_single_shot_measurement_cmd` from `src/sht3x.c` (the
`self == NULL` check has no counterpart for a by-value instance).
Returns the synchronous result code together with the bus effects
issued. -/
def sht3x_send_single_shot_measurement_cmd (self : SHT3XStruct)
    (repeatability clock_stretching : Nat) : Nat × List DriverEffect :=
  if ¬ (is_valid_repeatability repeatability = true
        ∧ is_valid_clock_stretching clock_stretching = true) then
    (SHT3X_RESULT_CODE_INVALID_ARG, [])
  else
    match get_single_shot_meas_command_code repeatability clock_stretching with
    | none => (SHT3X_RESULT_CODE_DRIVER_ERR, [])
    | some cmd => (SHT3X_RESULT_CODE_OK, [DriverEffect.i2cWrite [cmd.1, cmd.2] self.i2c_addr])

/-- Embedding of `sht3x_read_measurement` from `src/sht3x.c` (the `self == NULL`
check has no counterpart for a by-value instance).  Returns the
synchronous result code, the updated instance state, and the bus
effects issued. -/
def sht3x_read_measurement (self : SHT3XStruct) (flags : Nat) :
    Nat × SHT3XStruct × List DriverEffect :=
  if ¬ read_flags_valid flags = true then
    (SHT3X_RESULT_CODE_INVALID_ARG, self, [])
  else
    let self' := { self with
      sequence_type := SHT3X_SEQUENCE_TYPE_READ_MEAS
      sequence_flags := flags }
    let length := map_read_meas_flags_to_num_bytes_to_read self'.sequence_flags
    if length = 0 then
      (SHT3X_RESULT_CODE_DRIVER_ERR, self', [])
    else
      (SHT3X_RESULT_CODE_OK, self', [DriverEffect.i2cRead length self'.i2c_addr])

/-- Modelled from the spec: the public operations of the driver
instance.  The final driver revision's public entry points are declared
in `src/sht3x.h`; each operation carries the `uint8_t` option arguments
its C counterpart takes (callback and user-data pointers are not data
and are omitted).  `readStatusRegister` is declared in `src/sht3x.h`
but its definition is not present in `src/sht3x.c`. -/
inductive SHT3XPublicOp where
  | sendSingleShotMeasurementCmd (repeatability clock_stretching : Nat)
  | readMeasurement (flags : Nat)
  | startPeriodicMeasurement (repeatability mps : Nat)
  | startPeriodicMeasurementArt
  | fetchPeriodicMeasurementData
  | stopPeriodicMeasurement
  | softReset
  | enableHeater
  | disableHeater
  | sendReadStatusRegisterCmd
  | clearStatusRegister
  | readSingleShotMeasurement (repeatability clock_stretching flags : Nat)
  | readPeriodicMeasurement (flags : Nat)
  | softResetWithDelay
  | readStatusRegister (verify_crc : Bool)
deriving DecidableEq

/-- The argument validation each public operation performs before any
bus activity, taken from the entry guards in `src/sht3x.c`
(`readStatusRegister` validates nothing beyond the instance itself). -/
def op_args_valid : SHT3XPublicOp → Bool
  | .sendSingleShotMeasurementCmd r c => is_valid_repeatability r && is_valid_clock_stretching c
  | .readMeasurement f => read_flags_valid f
  | .startPeriodicMeasurement r m => is_valid_repeatability r && is_valid_mps m
  | .readSingleShotMeasurement r c f =>
      is_valid_repeatability r && is_valid_clock_stretching c && read_flags_valid f
  | .readPeriodicMeasurement f => read_flags_valid f
  | _ => true

/-- Well-formedness of the operation arguments under their C types:
every option argument is a `uint8_t`, hence below 256. -/
def op_wf : SHT3XPublicOp → Prop
  | .sendSingleShotMeasurementCmd r c => r < 256 ∧ c < 256
  | .readMeasurement f => f < 256
  | .startPeriodicMeasurement r m => r < 256 ∧ m < 256
  | .readSingleShotMeasurement r c f => r < 256 ∧ c < 256 ∧ f < 256
  | .readPeriodicMeasurement f => f < 256
  | _ => True

/-- The first bus operation each public operation issues once accepted,
taken from `src/sht3x.c` (every sequence starts with a 2-byte command
write to the configured address, except `readMeasurement`, which starts
with the measurement read itself).  An empty list marks the defensive
catalog-lookup failures that the source maps to `DRIVER_ERR`. -/
def op_first_effects (core : SHT3XStruct) : SHT3XPublicOp → List DriverEffect
  | .sendSingleShotMeasurementCmd r c =>
      match get_single_shot_meas_command_code r c with
      | none => []
      | some cmd => [DriverEffect.i2cWrite [cmd.1, cmd.2] core.i2c_addr]
  | .readMeasurement f =>
      let length := map_read_meas_flags_to_num_bytes_to_read f
      if length = 0 then [] else [DriverEffect.i2cRead length core.i2c_addr]
  | .startPeriodicMeasurement r m =>
      match get_start_periodic_meas_cmd r m with
      | none => []
      | some cmd => [DriverEffect.i2cWrite [cmd.1, cmd.2] core.i2c_addr]
  | .startPeriodicMeasurementArt => [DriverEffect.i2cWrite [0x2B, 0x32] core.i2c_addr]
  | .fetchPeriodicMeasurementData => [DriverEffect.i2cWrite [0xE0, 0x00] core.i2c_addr]
  | .stopPeriodicMeasurement => [DriverEffect.i2cWrite [0x30, 0x93] core.i2c_addr]
  | .softReset => [DriverEffect.i2cWrite [0x30, 0xA2] core.i2c_addr]
  | .enableHeater => [DriverEffect.i2cWrite [0x30, 0x6D] core.i2c_addr]
  | .disableHeater => [DriverEffect.i2cWrite [0x30, 0x66] core.i2c_addr]
  | .sendReadStatusRegisterCmd => [DriverEffect.i2cWrite [0xF3, 0x2D] core.i2c_addr]
  | .clearStatusRegister => [DriverEffect.i2cWrite [0x30, 0x41] core.i2c_addr]
  | .readSingleShotMeasurement r c _ =>
      match get_single_shot_meas_command_code r c with
      | none => []
      | some cmd => [DriverEffect.i2cWrite [cmd.1, cmd.2] core.i2c_addr]
  | .readPeriodicMeasurement _ => [DriverEffect.i2cWrite [0xE0, 0x00] core.i2c_addr]
  | .softResetWithDelay => [DriverEffect.i2cWrite [0x30, 0xA2] core.i2c_addr]
  | .readStatusRegister _ => [DriverEffect.i2cWrite [0xF3, 0x2D] core.i2c_addr]

/-- The active-sequence metadata each public operation records in the
instance before issuing its first bus operation, taken from
`src/sht3x.c`. -/
def op_update_core (core : SHT3XStruct) : SHT3XPublicOp → SHT3XStruct
  | .readMeasurement f =>
      { core with sequence_type := SHT3X_SEQUENCE_TYPE_READ_MEAS, sequence_flags := f }
  | .readSingleShotMeasurement r c f =>
      { core with
        sequence_type := SHT3X_SEQUENCE_TYPE_SINGLE_SHOT_MEAS
        repeatability := r
        clock_stretching := c
        sequence_flags := f }
  | .readPeriodicMeasurement f =>
      { core with sequence_type := SHT3X_SEQUENCE_TYPE_READ_PERIODIC_MEAS, sequence_flags := f }
  | _ => core

/-- Modelled from the spec: the per-instance driver state of the final
driver revision, which adds a `busy` flag to the fields of
`struct SHT3XStruct`.  The busy mechanism is declared in `src/sht3x.h`
(`SHT3X_RESULT_CODE_BUSY` documented on every public operation) and
exercised by `src/test/sht3x.cpp`, but the revision of `src/sht3x.c`
present does not yet contain it; the flag and its discipline are
modelled from the spec: busy is true from the moment a public operation
is accepted until the sequence's terminal completion callback fires. -/
structure SHT3XModelState where
  busy : Bool
  core : SHT3XStruct

/-- Modelled from the spec: the entry guard common to every public
operation in the final driver revision — "if `busy`, return Busy
immediately (no state change, no callback invoked)"; otherwise validate
arguments synchronously (no bus activity, no callback on failure), and
on success set `busy`, record the active-sequence descriptor, and issue
the operation's first bus action.  The non-busy behaviour (validation,
command catalog, first bus write/read, defensive `DRIVER_ERR` on a
catalog miss) is taken from the entry functions in `src/sht3x.c`. -/
def sht3x_public_invoke (s : SHT3XModelState) (op : SHT3XPublicOp) :
    Nat × SHT3XModelState × List DriverEffect :=
  if s.busy then
    (SHT3X_RESULT_CODE_BUSY, s, [])
  else if op_args_valid op = false then
    (SHT3X_RESULT_CODE_INVALID_ARG, s, [])
  else
    match op_first_effects s.core op with
    | [] => (SHT3X_RESULT_CODE_DRIVER_ERR, s, [])
    | effs => (SHT3X_RESULT_CODE_OK, { busy := true, core := op_update_core s.core op }, effs)

/-- Modelled from the spec: "Every terminal step, regardless of path,
must ... clear `busy` unconditionally so a subsequent operation may be
accepted."  This is the state transition performed when the outstanding
sequence's terminal completion callback fires. -/
def sequence_terminal_callback (s : SHT3XModelState) : SHT3XModelState :=
  { s with busy := false }

/-- Modelled from the spec: `sht3x_destroy` of the final driver
revision, as declared in `src/sht3x.h` — "Fails with Busy if a sequence
is in progress.  Otherwise invokes free_hook (if non-null) with the
instance's backing memory and caller-supplied user data, then returns
Ok.  A null free_hook is legal and is a no-op release."  `mem`
abstractly identifies the instance's backing memory and `user` the
caller-supplied user data; the returned list holds the arguments of
each free-hook invocation performed.  `hook_present` is false when the
caller passes a null hook. -/
def sht3x_destroy (s : SHT3XModelState) (mem : Nat) (hook_present : Bool) (user : Nat) :
    Nat × List (Nat × Nat) :=
  if s.busy then
    (SHT3X_RESULT_CODE_BUSY, [])
  else if hook_present then
    (SHT3X_RESULT_CODE_OK, [(mem, user)])
  else
    (SHT3X_RESULT_CODE_OK, [])

/-- A concrete instance for witnesses. -/
def testInstance : SHT3XStruct :=
  { i2c_addr := 0x44
    sequence_type := 0
    sequence_flags := 0
    repeatability := 0
    clock_stretching := 0
    i2c_read_buf := fun _ => 0 }

/-- A concrete busy model state for witnesses. -/
def busyState : SHT3XModelState := { busy := true, core := testInstance }

/-- A concrete idle model state for witnesses. -/
def idleState : SHT3XModelState := { busy := false, core := testInstance }

set_option maxRecDepth 2048 in
/-- For every 8-bit flag combination accepted by `read_flags_valid`,
the byte-count mapping yields a value in `{2, 3, 5, 6}`. -/
lemma flags_map_of_valid : ∀ f, f < 256 → read_flags_valid f = true →
    2 ≤ map_read_meas_flags_to_num_bytes_to_read f
    ∧ map_read_meas_flags_to_num_bytes_to_read f ≤ 6 := by decide

set_option maxRecDepth 2048 in
/-- For every 8-bit flag combination, validity coincides with a
non-zero byte count. -/
lemma flags_valid_iff_map_ne_zero : ∀ f, f < 256 →
    (read_flags_valid f = true ↔ map_read_meas_flags_to_num_bytes_to_read f ≠ 0) := by decide

/-- Valid arguments make the catalog lookups of `op_first_effects`
succeed, so the first bus action of an accepted operation exists. -/
lemma op_first_effects_ne_nil (core : SHT3XStruct) (op : SHT3XPublicOp)
    (hv : op_args_valid op = true) (hwf : op_wf op) :
    op_first_effects core op ≠ [] := by
  cases op with
  | sendSingleShotMeasurementCmd r c =>
    simp only [op_args_valid, Bool.and_eq_true] at hv
    obtain ⟨hr, hc⟩ := hv
    simp only [is_valid_repeatability, is_valid_clock_stretching, Bool.or_eq_true,
      beq_iff_eq] at hr hc
    rcases hr with (rfl | rfl) | rfl <;> rcases hc with rfl | rfl <;>
      simp [op_first_effects, get_single_shot_meas_command_code]
  | readMeasurement f =>
    simp only [op_args_valid] at hv
    have hmap := (flags_valid_iff_map_ne_zero f hwf).mp hv
    simp [op_first_effects, hmap]
  | startPeriodicMeasurement r m =>
    simp only [op_args_valid, Bool.and_eq_true] at hv
    obtain ⟨hr, hm⟩ := hv
    simp only [is_valid_repeatability, is_valid_mps, Bool.or_eq_true, beq_iff_eq] at hr hm
    rcases hr with (rfl | rfl) | rfl <;> rcases hm with (((rfl | rfl) | rfl) | rfl) | rfl <;>
      simp [op_first_effects, get_start_periodic_meas_cmd]
  | readSingleShotMeasurement r c f =>
    simp only [op_args_valid, Bool.and_eq_true] at hv
    obtain ⟨⟨hr, hc⟩, _⟩ := hv
    simp only [is_valid_repeatability, is_valid_clock_stretching, Bool.or_eq_true,
      beq_iff_eq] at hr hc
    rcases hr with (rfl | rfl) | rfl <;> rcases hc with rfl | rfl <;>
      simp [op_first_effects, get_single_shot_meas_command_code]
  | _ => simp [op_first_effects]

/-- C1: while a sequence is in progress (`busy`), every public
operation returns Busy immediately and synchronously with no state
change, no bus activity and no callback invocation; the terminal
callback clears `busy`; and with `busy` cleared, a public operation
with valid `uint8_t` arguments is accepted (returns Ok). -/
theorem sht3x_c1 : ∀ (s : SHT3XModelState) (op : SHT3XPublicOp),
    (s.busy = true → sht3x_public_invoke s op = (SHT3X_RESULT_CODE_BUSY, s, []))
    ∧ (sequence_terminal_callback s).busy = false
    ∧ (s.busy = false → op_args_valid op = true → op_wf op →
        (sht3x_public_invoke s op).1 = SHT3X_RESULT_CODE_OK) := by
  intro s op
  refine ⟨fun hb => ?_, rfl, fun hnb hv hwf => ?_⟩
  · unfold sht3x_public_invoke
    rw [if_pos hb]
  · unfold sht3x_public_invoke
    rw [if_neg (by simp [hnb]), if_neg (by simp [hv])]
    obtain ⟨e, es, heq⟩ : ∃ e es, op_first_effects s.core op = e :: es := by
      rcases h : op_first_effects s.core op with _ | ⟨e, es⟩
      · exact absurd h (op_first_effects_ne_nil s.core op hv hwf)
      · exact ⟨e, es, rfl⟩
    rw [heq]

/-- C1 witness. -/
theorem sht3x_c1_witness :
    sht3x_public_invoke busyState SHT3XPublicOp.enableHeater = (SHT3X_RESULT_CODE_BUSY, busyState, [])
    ∧ (sht3x_public_invoke (sequence_terminal_callback busyState) SHT3XPublicOp.enableHeater).1
        = SHT3X_RESULT_CODE_OK :=
  ⟨(sht3x_c1 busyState SHT3XPublicOp.enableHeater).1 rfl,
   (sht3x_c1 (sequence_terminal_callback busyState) SHT3XPublicOp.enableHeater).2.2 rfl rfl trivial⟩

/-- C3: Destroy fails with Busy (free hook not invoked) while a
sequence is in progress; otherwise it invokes the free hook (when
present) exactly once with the instance's backing memory and the
caller-supplied user data and returns Ok; a null hook is a legal no-op
release and Destroy still returns Ok. -/
theorem sht3x_c3 : ∀ (s : SHT3XModelState) (mem user : Nat) (hook_present : Bool),
    (s.busy = true → sht3x_destroy s mem hook_present user = (SHT3X_RESULT_CODE_BUSY, []))
    ∧ (s.busy = false → hook_present = true →
        sht3x_destroy s mem hook_present user = (SHT3X_RESULT_CODE_OK, [(mem, user)]))
    ∧ (s.busy = false → hook_present = false →
        sht3x_destroy s mem hook_present user = (SHT3X_RESULT_CODE_OK, [])) := by
  intro s mem user hook_present
  refine ⟨fun hb => by simp [sht3x_destroy, hb], fun hnb hh => by simp [sht3x_destroy, hnb, hh],
    fun hnb hh => by simp [sht3x_destroy, hnb, hh]⟩

/-- C3 witness. -/
theorem sht3x_c3_witness :
    sht3x_destroy busyState 7 true 9 = (SHT3X_RESULT_CODE_BUSY, [])
    ∧ sht3x_destroy idleState 7 true 9 = (SHT3X_RESULT_CODE_OK, [(7, 9)])
    ∧ sht3x_destroy idleState 7 false 9 = (SHT3X_RESULT_CODE_OK, []) :=
  ⟨(sht3x_c3 busyState 7 9 true).1 rfl,
   (sht3x_c3 idleState 7 9 true).2.1 rfl rfl,
   (sht3x_c3 idleState 7 9 false).2.2 rfl rfl⟩

/-- C2 counterexample: the claim states that humidity-only without
checksum reads 3 bytes, but the code reads 5 bytes for that flag
combination (it always reads from offset zero, through the temperature
field). -/
theorem sht3x_c2_cex :
    map_read_meas_flags_to_num_bytes_to_read SHT3X_FLAG_READ_HUM = 5
    ∧ map_read_meas_flags_to_num_bytes_to_read SHT3X_FLAG_READ_HUM ≠ 3 := by decide

set_option maxRecDepth 2048 in
/-- C2 (amended): byte counts per valid flag combination are
temp-only = 2, temp-only+temp-crc = 3, and every combination that
includes humidity reads through the temperature field: 5 without the
humidity checksum (regardless of the temperature-checksum flag),
6 with it; every invalid 8-bit flag combination maps to 0. -/
theorem sht3x_c2 :
    map_read_meas_flags_to_num_bytes_to_read SHT3X_FLAG_READ_TEMP = 2
    ∧ map_read_meas_flags_to_num_bytes_to_read
        (SHT3X_FLAG_READ_TEMP ||| SHT3X_FLAG_VERIFY_CRC_TEMP) = 3
    ∧ map_read_meas_flags_to_num_bytes_to_read SHT3X_FLAG_READ_HUM = 5
    ∧ map_read_meas_flags_to_num_bytes_to_read
        (SHT3X_FLAG_READ_HUM ||| SHT3X_FLAG_VERIFY_CRC_HUM) = 6
    ∧ map_read_meas_flags_to_num_bytes_to_read
        (SHT3X_FLAG_READ_TEMP ||| SHT3X_FLAG_READ_HUM) = 5
    ∧ map_read_meas_flags_to_num_bytes_to_read
        (SHT3X_FLAG_READ_TEMP ||| SHT3X_FLAG_READ_HUM ||| SHT3X_FLAG_VERIFY_CRC_TEMP) = 5
    ∧ map_read_meas_flags_to_num_bytes_to_read
        (SHT3X_FLAG_READ_TEMP ||| SHT3X_FLAG_READ_HUM ||| SHT3X_FLAG_VERIFY_CRC_HUM) = 6
    ∧ map_read_meas_flags_to_num_bytes_to_read
        (SHT3X_FLAG_READ_TEMP ||| SHT3X_FLAG_READ_HUM
          ||| SHT3X_FLAG_VERIFY_CRC_TEMP ||| SHT3X_FLAG_VERIFY_CRC_HUM) = 6
    ∧ ∀ f, f < 256 → read_flags_valid f = false →
        map_read_meas_flags_to_num_bytes_to_read f = 0 := by decide

/-- C2 witness. -/
theorem sht3x_c2_witness : map_read_meas_flags_to_num_bytes_to_read 4 = 0 :=
  sht3x_c2.2.2.2.2.2.2.2.2 4 (by decide) (by decide)

/-- C5: the checksum function agrees, on all inputs, with the
bit-serial most-significant-bit-first CRC with polynomial `0x31`,
initial value `0xFF` and no final XOR over the 16 message bits of the
two input bytes; its result is an 8-bit value; and on the bytes
`{0x62, 0x60}` it returns `0xB6`. -/
theorem sht3x_c5 :
    (∀ b0 b1 : Nat, sht3x_crc8 b0 b1 = crc8_spec_bits b0 b1)
    ∧ (∀ b0 b1 : Nat, sht3x_crc8 b0 b1 < 256)
    ∧ sht3x_crc8 0x62 0x60 = 0xB6 := by
  have hlt : ∀ x : Nat, crc8_round x < 256 := by
    intro x
    unfold crc8_round
    split <;> exact Nat.lt_succ_of_le Nat.and_le_right
  refine ⟨fun b0 b1 => ?_, fun b0 b1 => hlt _, by decide⟩
  unfold sht3x_crc8 crc8_spec_bits
  rw [List.foldl_append, ← crc8_byte_eq_bits, ← crc8_byte_eq_bits]

set_option maxRecDepth 2048 in
/-- C9: for every 8-bit flags value, `read_flags_valid` accepts the
flags exactly when `map_read_meas_flags_to_num_bytes_to_read` is
non-zero; consequently the `DRIVER_ERR` branch of
`sht3x_read_measurement` after successful validation is unreachable. -/
theorem sht3x_c9 :
    (∀ flags, flags < 256 →
      (read_flags_valid flags = true
        ↔ map_read_meas_flags_to_num_bytes_to_read flags ≠ 0))
    ∧ ∀ (self : SHT3XStruct) (flags : Nat), flags < 256 →
        (sht3x_read_measurement self flags).1 ≠ SHT3X_RESULT_CODE_DRIVER_ERR := by
  refine ⟨fun flags hf => flags_valid_iff_map_ne_zero flags hf, ?_⟩
  intro self flags hf
  unfold sht3x_read_measurement
  by_cases hv : read_flags_valid flags = true
  · have hmap := (flags_valid_iff_map_ne_zero flags hf).mp hv
    simp [hv, hmap]
  · simp [hv]

/-- C9 witness. -/
theorem sht3x_c9_witness :
    (read_flags_valid 3 = true ↔ map_read_meas_flags_to_num_bytes_to_read 3 ≠ 0)
    ∧ (sht3x_read_measurement testInstance 3).1 ≠ SHT3X_RESULT_CODE_DRIVER_ERR :=
  ⟨sht3x_c9.1 3 (by decide), sht3x_c9.2 testInstance 3 (by decide)⟩

/-- C10: when the stored sequence flags are a valid combination, the
timer-expiry continuations of the combined measurement sequences never
take the `DRIVER_ERR` branch and issue exactly one bus read of between
2 and 6 bytes. -/
theorem sht3x_c10 : ∀ self : SHT3XStruct, self.sequence_flags < 256 →
    read_flags_valid self.sequence_flags = true →
    2 ≤ map_read_meas_flags_to_num_bytes_to_read self.sequence_flags
    ∧ map_read_meas_flags_to_num_bytes_to_read self.sequence_flags ≤ 6
    ∧ read_single_shot_measurement_part_3 self =
        [DriverEffect.i2cRead
          (map_read_meas_flags_to_num_bytes_to_read self.sequence_flags) self.i2c_addr]
    ∧ read_periodic_measurement_part_3 self =
        [DriverEffect.i2cRead
          (map_read_meas_flags_to_num_bytes_to_read self.sequence_flags) self.i2c_addr] := by
  intro self hf hv
  obtain ⟨h2, h6⟩ := flags_map_of_valid self.sequence_flags hf hv
  have hne : map_read_meas_flags_to_num_bytes_to_read self.sequence_flags ≠ 0 := by omega
  refine ⟨h2, h6, ?_, ?_⟩ <;>
    simp [read_single_shot_measurement_part_3, read_periodic_measurement_part_3, hne]

/-- C10 witness. -/
theorem sht3x_c10_witness :
    2 ≤ map_read_meas_flags_to_num_bytes_to_read
          ({ testInstance with sequence_flags := 3 } : SHT3XStruct).sequence_flags
    ∧ map_read_meas_flags_to_num_bytes_to_read
          ({ testInstance with sequence_flags := 3 } : SHT3XStruct).sequence_flags ≤ 6
    ∧ read_single_shot_measurement_part_3 { testInstance with sequence_flags := 3 } =
        [DriverEffect.i2cRead
          (map_read_meas_flags_to_num_bytes_to_read
            ({ testInstance with sequence_flags := 3 } : SHT3XStruct).sequence_flags)
          ({ testInstance with sequence_flags := 3 } : SHT3XStruct).i2c_addr]
    ∧ read_periodic_measurement_part_3 { testInstance with sequence_flags := 3 } =
        [DriverEffect.i2cRead
          (map_read_meas_flags_to_num_bytes_to_read
            ({ testInstance with sequence_flags := 3 } : SHT3XStruct).sequence_flags)
          ({ testInstance with sequence_flags := 3 } : SHT3XStruct).i2c_addr] :=
  sht3x_c10 { testInstance with sequence_flags := 3 } (by decide) (by decide)

/-- C4: in the measurement read-completion handler, an
address-not-acknowledged bus result yields `NO_DATA` exactly when the
stored sequence kind is read-measurement or read-periodic-measurement
and `IO_ERR` for every other sequence kind; every other non-Ok bus
result yields `IO_ERR`; in all these failure cases the callback
receives no measurement data (`none`). -/
theorem sht3x_c4 : ∀ (self : SHT3XStruct) (result_code : Nat),
    (result_code = SHT3X_I2C_RESULT_CODE_ADDRESS_NACK →
      ((self.sequence_type = SHT3X_SEQUENCE_TYPE_READ_MEAS
          ∨ self.sequence_type = SHT3X_SEQUENCE_TYPE_READ_PERIODIC_MEAS) →
        meas_i2c_complete_cb result_code self = (SHT3X_RESULT_CODE_NO_DATA, none))
      ∧ (¬ (self.sequence_type = SHT3X_SEQUENCE_TYPE_READ_MEAS
          ∨ self.sequence_type = SHT3X_SEQUENCE_TYPE_READ_PERIODIC_MEAS) →
        meas_i2c_complete_cb result_code self = (SHT3X_RESULT_CODE_IO_ERR, none)))
    ∧ (result_code ≠ SHT3X_I2C_RESULT_CODE_OK →
        result_code ≠ SHT3X_I2C_RESULT_CODE_ADDRESS_NACK →
        meas_i2c_complete_cb result_code self = (SHT3X_RESULT_CODE_IO_ERR, none)) := by
  intro self result_code
  refine ⟨fun hnack => ⟨fun hkind => ?_, fun hkind => ?_⟩, fun hok hnack => ?_⟩
  · simp [meas_i2c_complete_cb, hnack, hkind]
  · simp [meas_i2c_complete_cb, hnack, hkind]
  · simp [meas_i2c_complete_cb, hnack, hok]

/-- C4 witness: address NACK during a single-shot-measurement sequence
is an IO error; during a read-measurement sequence it is NoData; and a
bus error is an IO error. -/
theorem sht3x_c4_witness :
    meas_i2c_complete_cb SHT3X_I2C_RESULT_CODE_ADDRESS_NACK
        { testInstance with sequence_type := SHT3X_SEQUENCE_TYPE_SINGLE_SHOT_MEAS }
      = (SHT3X_RESULT_CODE_IO_ERR, none)
    ∧ meas_i2c_complete_cb SHT3X_I2C_RESULT_CODE_ADDRESS_NACK
        { testInstance with sequence_type := SHT3X_SEQUENCE_TYPE_READ_MEAS }
      = (SHT3X_RESULT_CODE_NO_DATA, none)
    ∧ meas_i2c_complete_cb SHT3X_I2C_RESULT_CODE_BUS_ERROR
        { testInstance with sequence_type := SHT3X_SEQUENCE_TYPE_READ_MEAS }
      = (SHT3X_RESULT_CODE_IO_ERR, none) :=
  ⟨((sht3x_c4 { testInstance with sequence_type := SHT3X_SEQUENCE_TYPE_SINGLE_SHOT_MEAS }
      SHT3X_I2C_RESULT_CODE_ADDRESS_NACK).1 rfl).2 (by decide),
   ((sht3x_c4 { testInstance with sequence_type := SHT3X_SEQUENCE_TYPE_READ_MEAS }
      SHT3X_I2C_RESULT_CODE_ADDRESS_NACK).1 rfl).1 (Or.inl rfl),
   (sht3x_c4 { testInstance with sequence_type := SHT3X_SEQUENCE_TYPE_READ_MEAS }
      SHT3X_I2C_RESULT_CODE_BUS_ERROR).2 (by decide) (by decide)⟩

/-- C6: for every valid (repeatability, clock-stretching) pair,
`sht3x_send_single_shot_measurement_cmd` returns Ok and writes exactly
the 2-byte command from the datasheet table to the configured address;
the six pairs are listed explicitly. -/
theorem sht3x_c6 : ∀ self : SHT3XStruct,
    (sht3x_send_single_shot_measurement_cmd self
        SHT3X_MEAS_REPEATABILITY_HIGH SHT3X_CLOCK_STRETCHING_DISABLED
      = (SHT3X_RESULT_CODE_OK, [DriverEffect.i2cWrite [0x24, 0x00] self.i2c_addr]))
    ∧ (sht3x_send_single_shot_measurement_cmd self
        SHT3X_MEAS_REPEATABILITY_MEDIUM SHT3X_CLOCK_STRETCHING_DISABLED
      = (SHT3X_RESULT_CODE_OK, [DriverEffect.i2cWrite [0x24, 0x0B] self.i2c_addr]))
    ∧ (sht3x_send_single_shot_measurement_cmd self
        SHT3X_MEAS_REPEATABILITY_LOW SHT3X_CLOCK_STRETCHING_DISABLED
      = (SHT3X_RESULT_CODE_OK, [DriverEffect.i2cWrite [0x24, 0x16] self.i2c_addr]))
    ∧ (sht3x_send_single_shot_measurement_cmd self
        SHT3X_MEAS_REPEATABILITY_HIGH SHT3X_CLOCK_STRETCHING_ENABLED
      = (SHT3X_RESULT_CODE_OK, [DriverEffect.i2cWrite [0x2C, 0x06] self.i2c_addr]))
    ∧ (sht3x_send_single_shot_measurement_cmd self
        SHT3X_MEAS_REPEATABILITY_MEDIUM SHT3X_CLOCK_STRETCHING_ENABLED
      = (SHT3X_RESULT_CODE_OK, [DriverEffect.i2cWrite [0x2C, 0x0D] self.i2c_addr]))
    ∧ (sht3x_send_single_shot_measurement_cmd self
        SHT3X_MEAS_REPEATABILITY_LOW SHT3X_CLOCK_STRETCHING_ENABLED
      = (SHT3X_RESULT_CODE_OK, [DriverEffect.i2cWrite [0x2C, 0x10] self.i2c_addr]))
    ∧ ∀ r c, is_valid_repeatability r = true → is_valid_clock_stretching c = true →
        ∃ msb lsb, get_single_shot_meas_command_code r c = some (msb, lsb)
          ∧ sht3x_send_single_shot_measurement_cmd self r c
              = (SHT3X_RESULT_CODE_OK, [DriverEffect.i2cWrite [msb, lsb] self.i2c_addr]) := by
  intro self
  refine ⟨rfl, rfl, rfl, rfl, rfl, rfl, fun r c hr hc => ?_⟩
  simp only [is_valid_repeatability, is_valid_clock_stretching, Bool.or_eq_true,
    beq_iff_eq] at hr hc
  rcases hr with (rfl | rfl) | rfl <;> rcases hc with rfl | rfl <;>
    exact ⟨_, _, rfl, rfl⟩

/-- C6 witness. -/
theorem sht3x_c6_witness :
    ∃ msb lsb,
      get_single_shot_meas_command_code SHT3X_MEAS_REPEATABILITY_HIGH
          SHT3X_CLOCK_STRETCHING_DISABLED = some (msb, lsb)
      ∧ sht3x_send_single_shot_measurement_cmd testInstance SHT3X_MEAS_REPEATABILITY_HIGH
          SHT3X_CLOCK_STRETCHING_DISABLED
        = (SHT3X_RESULT_CODE_OK, [DriverEffect.i2cWrite [msb, lsb] testInstance.i2c_addr]) :=
  (sht3x_c6 testInstance).2.2.2.2.2.2 SHT3X_MEAS_REPEATABILITY_HIGH
    SHT3X_CLOCK_STRETCHING_DISABLED (by decide) (by decide)

/-- C7: after the single-shot command write completes successfully, the
timer delay is 1 ms whenever clock stretching is enabled (for any
stored repeatability), and 16/7/5 ms for high/medium/low repeatability
when clock stretching is disabled. -/
theorem sht3x_c7 : ∀ self : SHT3XStruct,
    (self.clock_stretching = SHT3X_CLOCK_STRETCHING_ENABLED →
      read_single_shot_measurement_part_2 SHT3X_I2C_RESULT_CODE_OK self
        = [DriverEffect.startTimer 1])
    ∧ (self.clock_stretching = SHT3X_CLOCK_STRETCHING_DISABLED →
      ((self.repeatability = SHT3X_MEAS_REPEATABILITY_HIGH →
          read_single_shot_measurement_part_2 SHT3X_I2C_RESULT_CODE_OK self
            = [DriverEffect.startTimer 16])
        ∧ (self.repeatability = SHT3X_MEAS_REPEATABILITY_MEDIUM →
          read_single_shot_measurement_part_2 SHT3X_I2C_RESULT_CODE_OK self
            = [DriverEffect.startTimer 7])
        ∧ (self.repeatability = SHT3X_MEAS_REPEATABILITY_LOW →
          read_single_shot_measurement_part_2 SHT3X_I2C_RESULT_CODE_OK self
            = [DriverEffect.startTimer 5]))) := by
  intro self
  refine ⟨fun hcs =>
      by simp [read_single_shot_measurement_part_2, get_single_shot_meas_timer_period, hcs],
    fun hcs => ⟨fun hr => ?_, fun hr => ?_, fun hr => ?_⟩⟩ <;>
    simp [read_single_shot_measurement_part_2, get_single_shot_meas_timer_period, hcs, hr]

/-- C7 witness. -/
theorem sht3x_c7_witness :
    read_single_shot_measurement_part_2 SHT3X_I2C_RESULT_CODE_OK
        { testInstance with clock_stretching := SHT3X_CLOCK_STRETCHING_ENABLED }
      = [DriverEffect.startTimer 1]
    ∧ read_single_shot_measurement_part_2 SHT3X_I2C_RESULT_CODE_OK
        { testInstance with
            clock_stretching := SHT3X_CLOCK_STRETCHING_DISABLED
            repeatability := SHT3X_MEAS_REPEATABILITY_HIGH }
      = [DriverEffect.startTimer 16] :=
  ⟨(sht3x_c7 { testInstance with clock_stretching := SHT3X_CLOCK_STRETCHING_ENABLED }).1 rfl,
   ((sht3x_c7 { testInstance with
      clock_stretching := SHT3X_CLOCK_STRETCHING_DISABLED
      repeatability := SHT3X_MEAS_REPEATABILITY_HIGH }).2 rfl).1 rfl⟩

/-- The big-endian pair of two bytes is below `2^16`. -/
lemma two_big_endian_bytes_lt (b0 b1 : Nat) (h0 : b0 < 256) (h1 : b1 < 256) :
    two_big_endian_bytes_to_uint16 b0 b1 < 65536 := by
  unfold two_big_endian_bytes_to_uint16
  have hs : b0 <<< 8 < 2 ^ 16 := by
    rw [Nat.shiftLeft_eq]
    calc b0 * 2 ^ 8 < 256 * 2 ^ 8 := by
          exact Nat.mul_lt_mul_of_lt_of_le h0 (Nat.le_refl _) (by norm_num)
    _ = 2 ^ 16 := by norm_num
  have hb1 : b1 < 2 ^ 16 := by
    calc b1 < 256 := h1
    _ ≤ 2 ^ 16 := by norm_num
  have hlt := Nat.or_lt_two_pow hs hb1
  calc b0 <<< 8 ||| b1 < 2 ^ 16 := hlt
  _ = 65536 := by norm_num

/-- C8 counterexample: the claim's temperature formula
`315/65535 × raw16 − 45` does not match the code; at the raw bytes
`{0x62, 0x60}` the code yields ≈ 22.25 °C while the claim's formula
yields ≈ 76.05 °C. -/
theorem sht3x_c8_cex :
    convert_raw_temp_meas_to_celsius 0x62 0x60
      ≠ (315 / 65535) * (two_big_endian_bytes_to_uint16 0x62 0x60 : ℚ) - 45 := by
  have h : two_big_endian_bytes_to_uint16 0x62 0x60 = 25184 := by decide
  simp only [convert_raw_temp_meas_to_celsius, SHT3X_TEMPERATURE_CONVERSION_MAGIC, h]
  push_cast
  norm_num

/-- C8 (amended): the decoded temperature agrees with
`175/65535 × raw16 − 45` (the datasheet Celsius formula; the `315`
numerator belongs to the Fahrenheit formula) and the decoded humidity
with `100/65535 × raw16`, each to within `10⁻⁶` over the whole raw
range; and the raw bytes `{0x62, 0x60, 0xB6, 0x72, 0xB3}` decode to
≈ 22.25 °C and ≈ 44.80 %RH within 0.01. -/
theorem sht3x_c8 :
    (∀ b0 b1 : Nat, b0 < 256 → b1 < 256 →
      |convert_raw_temp_meas_to_celsius b0 b1
        - ((175 / 65535) * (two_big_endian_bytes_to_uint16 b0 b1 : ℚ) - 45)| < 1 / 1000000
      ∧ |convert_raw_humidity_meas_to_rh b0 b1
        - (100 / 65535) * (two_big_endian_bytes_to_uint16 b0 b1 : ℚ)| < 1 / 1000000)
    ∧ |convert_raw_temp_meas_to_celsius 0x62 0x60 - 22.25| ≤ 1 / 100
    ∧ |convert_raw_humidity_meas_to_rh 0x72 0xB3 - 44.80| ≤ 1 / 100 := by
  refine ⟨fun b0 b1 h0 h1 => ?_, ?_, ?_⟩
  · have hub := two_big_endian_bytes_lt b0 b1 h0 h1
    have hq65 : (two_big_endian_bytes_to_uint16 b0 b1 : ℚ) ≤ 65535 := by
      exact_mod_cast Nat.lt_succ_iff.mp hub
    have hq0 : (0 : ℚ) ≤ (two_big_endian_bytes_to_uint16 b0 b1 : ℚ) := Nat.cast_nonneg _
    constructor
    · simp only [convert_raw_temp_meas_to_celsius, SHT3X_TEMPERATURE_CONVERSION_MAGIC]
      rw [abs_lt]
      constructor <;> linarith
    · simp only [convert_raw_humidity_meas_to_rh, SHT3X_HUMIDITY_CONVERSION_MAGIC]
      rw [abs_lt]
      constructor <;> linarith
  · have h : two_big_endian_bytes_to_uint16 0x62 0x60 = 25184 := by decide
    simp only [convert_raw_temp_meas_to_celsius, SHT3X_TEMPERATURE_CONVERSION_MAGIC, h]
    rw [abs_le]
    constructor <;> push_cast <;> norm_num
  · have h : two_big_endian_bytes_to_uint16 0x72 0xB3 = 29363 := by decide
    simp only [convert_raw_humidity_meas_to_rh, SHT3X_HUMIDITY_CONVERSION_MAGIC, h]
    rw [abs_le]
    constructor <;> push_cast <;> norm_num

/-- C8 witness. -/
theorem sht3x_c8_witness :
    |convert_raw_temp_meas_to_celsius 0x62 0x60
      - ((175 / 65535) * (two_big_endian_bytes_to_uint16 0x62 0x60 : ℚ) - 45)| < 1 / 1000000
    ∧ |convert_raw_humidity_meas_to_rh 0x62 0x60
      - (100 / 65535) * (two_big_endian_bytes_to_uint16 0x62 0x60 : ℚ)| < 1 / 1000000 :=
  sht3x_c8.1 0x62 0x60 (by decide) (by decide)
